import Mathlib

/-!
Verification of the meal_max Battle Resolution Engine and Meal Record Store.

The repository ships only the test suites (tests/test_battle_model.py,
tests/test_kitchen_model.py); the model modules themselves
(meal_max/models/battle_model.py, meal_max/models/kitchen_model.py) are not
present. Every definition below is therefore modelled from the specification,
cross-checked against the behaviour the tests exercise.
-/

namespace MealMax

/-- Modelled from the spec: difficulty tier of a meal, one of LOW, MED, HIGH. -/
inductive Difficulty where
  | LOW
  | MED
  | HIGH
deriving DecidableEq, Repr

/-- Modelled from the spec: a combatant (meal) as consumed by the Engine:
identifier, display name (`meal`), cuisine label, price (positive real,
modelled as a rational), difficulty tier. -/
structure Meal where
  id : Nat
  meal : String
  cuisine : String
  price : Rat
  difficulty : Difficulty
deriving DecidableEq, Repr

/-- Modelled from the spec: the fixed difficulty-penalty table
LOW: 3, MED: 2, HIGH: 1 (missing battle_model.py). -/
def difficulty_modifier : Difficulty → Rat
  | Difficulty.LOW => 3
  | Difficulty.MED => 2
  | Difficulty.HIGH => 1

/-- Modelled from the spec: the Engine state, a roster of staged combatants
(missing battle_model.py, BattleModel.combatants). -/
structure BattleModel where
  combatants : List Meal
deriving DecidableEq, Repr

/-- Modelled from the spec: a fresh Engine starts with an empty roster. -/
def BattleModel.init : BattleModel := ⟨[]⟩

/-- Modelled from the spec: score = price × length(cuisine_label) −
difficulty_penalty (missing battle_model.py, get_battle_score). -/
def get_battle_score (m : Meal) : Rat :=
  m.price * (m.cuisine.length : Rat) - difficulty_modifier m.difficulty

/-- Modelled from the spec: staging appends a combatant; fails with a
capacity error when the roster already holds two combatants, leaving the
roster unchanged (missing battle_model.py, prep_combatant). -/
def prep_combatant (s : BattleModel) (m : Meal) : Except String BattleModel :=
  if 2 ≤ s.combatants.length then
    Except.error "Combatant list is full, cannot add more combatants."
  else
    Except.ok ⟨s.combatants ++ [m]⟩

/-- Modelled from the spec: clear empties the roster unconditionally
(missing battle_model.py, clear_combatants). -/
def clear_combatants (_s : BattleModel) : BattleModel := ⟨[]⟩

/-- Modelled from the spec: list returns the roster in staging order
(missing battle_model.py, get_combatants). -/
def get_combatants (s : BattleModel) : List Meal := s.combatants

/-- Modelled from the spec: the external calls resolve() can issue — one
draw from the Random Provider, stat updates to the Meal Record Store. -/
inductive ExtCall where
  | getRandom
  | updateStats (id : Nat) (result : String)
deriving DecidableEq, Repr

/-- Modelled from the spec: the transient result of one resolution — the
display name of the winning combatant and the Engine state after the battle. -/
structure BattleOutcome where
  winner : String
  state : BattleModel
deriving DecidableEq, Repr

/-- Modelled from the spec: resolve()/battle() (missing battle_model.py,
BattleModel.battle). Requires exactly two staged combatants, computes
delta = |s1 − s2| / 100, draws r, selects roster[0] as winner when
r < delta and roster[1] otherwise, records a win for the winner and a
loss for the loser with the Store, removes the loser and returns the
name of the winner. The random draw is passed in as `r`; the returned list is
the trace of external calls issued. -/
def battle (s : BattleModel) (r : Rat) : Except String BattleOutcome × List ExtCall :=
  match s.combatants with
  | [c1, c2] =>
    let score1 := get_battle_score c1
    let score2 := get_battle_score c2
    let delta := |score1 - score2| / 100
    if r < delta then
      (Except.ok ⟨c1.meal, ⟨[c1]⟩⟩,
        [ExtCall.getRandom, ExtCall.updateStats c1.id "win",
         ExtCall.updateStats c2.id "loss"])
    else
      (Except.ok ⟨c2.meal, ⟨[c2]⟩⟩,
        [ExtCall.getRandom, ExtCall.updateStats c2.id "win",
         ExtCall.updateStats c1.id "loss"])
  | _ => (Except.error "Two combatants must be prepped for a battle.", [])

/-- One step of a staging sequence: attempt to stage a combatant, keeping
the previous state when the staging call fails. -/
def stageStep (s : BattleModel) (m : Meal) : BattleModel :=
  match prep_combatant s m with
  | Except.ok s2 => s2
  | Except.error _ => s

/-- Run a sequence of staging calls from a fresh Engine. -/
def stageSeq (ms : List Meal) : BattleModel :=
  ms.foldl stageStep BattleModel.init

/-- Modelled from the spec: a persisted meal row in the Meal Record Store
(missing kitchen_model.py): identity, attributes, battle statistics and
the soft-delete flag. Difficulty is kept as the raw string the creation
path validates. -/
structure MealRow where
  id : Nat
  meal : String
  cuisine : String
  price : Rat
  difficulty : String
  battles : Nat
  wins : Nat
  deleted : Bool
deriving DecidableEq, Repr

/-- Modelled from the spec: the meals table of the Store. -/
abbrev Db := List MealRow

/-- Modelled from the spec: row lookup by meal id (SELECT ... WHERE id = ?). -/
def findMeal (db : Db) (meal_id : Nat) : Option MealRow :=
  db.find? (fun row => row.id == meal_id)

/-- Modelled from the spec: update_stats / update_meal_stats (missing
kitchen_model.py). Looks the meal up, rejects missing or soft-deleted
meals, then on "win" increments battle count and win count, on "loss"
increments battle count only, and rejects any other result string. -/
def update_meal_stats (db : Db) (meal_id : Nat) (result : String) : Except String Db :=
  match findMeal db meal_id with
  | none => Except.error "Meal not found"
  | some row =>
    if row.deleted then
      Except.error "Meal has been deleted"
    else if result = "win" then
      Except.ok (db.map (fun t =>
        if t.id == meal_id then
          { t with battles := t.battles + 1, wins := t.wins + 1 }
        else t))
    else if result = "loss" then
      Except.ok (db.map (fun t =>
        if t.id == meal_id then { t with battles := t.battles + 1 } else t))
    else
      Except.error "Invalid result. Expected win or loss."

/-- Modelled from the spec: the difficulty strings accepted by the creation
path of the Store. -/
def validDifficulty (difficulty : String) : Bool :=
  difficulty == "LOW" || difficulty == "MED" || difficulty == "HIGH"

/-- Modelled from the spec: create_meal (missing kitchen_model.py).
Rejects a non-positive price, rejects a difficulty outside
LOW/MED/HIGH, rejects an exact duplicate, and otherwise inserts a fresh
row with zero statistics. -/
def create_meal (db : Db) (name cuisine : String) (price : Rat)
    (difficulty : String) : Except String Db :=
  if price ≤ 0 then
    Except.error "Invalid meal price. Price must be a positive number."
  else if validDifficulty difficulty = false then
    Except.error "Invalid difficulty level. Must be LOW, MED, or HIGH."
  else if db.any (fun t => t.meal == name && t.cuisine == cuisine &&
      t.price == price && t.difficulty == difficulty) then
    Except.error "Meal already exists."
  else
    Except.ok (db ++ [⟨db.length + 1, name, cuisine, price, difficulty, 0, 0, false⟩])

/-- Modelled from the spec: one leaderboard entry as returned by
get_leaderboard, with win_pct = wins / battles. -/
structure LeaderboardEntry where
  id : Nat
  meal : String
  cuisine : String
  price : Rat
  difficulty : String
  battles : Nat
  wins : Nat
  win_pct : Rat
deriving DecidableEq, Repr

/-- Modelled from the spec: projection of a stored row to a leaderboard
entry, computing win_pct = wins / battles. -/
def rowToEntry (r : MealRow) : LeaderboardEntry :=
  ⟨r.id, r.meal, r.cuisine, r.price, r.difficulty, r.battles, r.wins,
   (r.wins : Rat) / (r.battles : Rat)⟩

/-- Modelled from the spec: get_leaderboard (missing kitchen_model.py),
SELECT ... FROM meals WHERE deleted = false AND battles > 0 ORDER BY
wins DESC (or win_pct DESC); any other sort key is rejected. -/
def get_leaderboard (db : Db) (sort_by : String) : Except String (List LeaderboardEntry) :=
  let rows := db.filter (fun r => !r.deleted && decide (0 < r.battles))
  if sort_by = "wins" then
    Except.ok ((rows.mergeSort (fun a b => Nat.ble b.wins a.wins)).map rowToEntry)
  else if sort_by = "win_pct" then
    Except.ok ((rows.map rowToEntry).mergeSort
      (fun a b => decide (b.win_pct ≤ a.win_pct)))
  else
    Except.error "Invalid sort_by parameter."

/-- Whether a fallible Store operation succeeded. -/
def isOk {α : Type} (e : Except String α) : Bool :=
  match e with
  | Except.ok _ => true
  | Except.error _ => false

/-- The first sample meal of the test suite. -/
def spaghetti : Meal := ⟨1, "Spaghetti", "Italian", 15, Difficulty.LOW⟩

/-- The second sample meal of the test suite. -/
def sushi : Meal := ⟨2, "Sushi", "Japanese", 20, Difficulty.HIGH⟩

/-- A sample stored row for the Store theorems. -/
def spagRow : MealRow := ⟨1, "Spaghetti", "Italian", 15, "MED", 0, 0, false⟩

/-! ## Theorems -/

/-- C1: for every meal m, the battle score equals price(m) times the number
of characters of the cuisine string of m minus the difficulty penalty from the
fixed table LOW: 3, MED: 2, HIGH: 1; for price 10 and cuisine length 4 the
difficulties LOW, MED, HIGH give scores 37, 38, 39. -/
theorem C1_score_formula :
    (∀ m : Meal, get_battle_score m =
      m.price * (m.cuisine.length : Rat) - difficulty_modifier m.difficulty) ∧
    difficulty_modifier Difficulty.LOW = 3 ∧
    difficulty_modifier Difficulty.MED = 2 ∧
    difficulty_modifier Difficulty.HIGH = 1 ∧
    get_battle_score ⟨1, "Test", "Test", 10, Difficulty.LOW⟩ = 37 ∧
    get_battle_score ⟨2, "Test", "Test", 10, Difficulty.MED⟩ = 38 ∧
    get_battle_score ⟨3, "Test", "Test", 10, Difficulty.HIGH⟩ = 39 := by
  have h : "Test".length = 4 := rfl
  refine ⟨fun m => rfl, rfl, rfl, rfl, ?_, ?_, ?_⟩ <;>
    simp only [get_battle_score, difficulty_modifier, h] <;> norm_num

/-- C5: every successful battle issues exactly two stat-update calls to the
Store: one with the identifier of the winner and result "win" and one with the
identifier of the loser and result "loss", never the reverse pairing. -/
theorem C5_stat_calls (c1 c2 : Meal) (r : Rat) :
    (battle ⟨[c1, c2]⟩ r).2.filter
        (fun c => match c with
          | ExtCall.updateStats _ _ => true
          | ExtCall.getRandom => false) =
      (if r < |get_battle_score c1 - get_battle_score c2| / 100 then
        [ExtCall.updateStats c1.id "win", ExtCall.updateStats c2.id "loss"]
      else
        [ExtCall.updateStats c2.id "win", ExtCall.updateStats c1.id "loss"]) := by
  by_cases h : r < |get_battle_score c1 - get_battle_score c2| / 100 <;>
    simp [battle, h, List.filter]

/-- One staging step keeps the roster at no more than two combatants. -/
theorem stageStep_le (t : BattleModel) (m : Meal) (h : t.combatants.length ≤ 2) :
    (stageStep t m).combatants.length ≤ 2 := by
  by_cases h2 : 2 ≤ t.combatants.length
  · simpa [stageStep, prep_combatant, h2] using h
  · simp only [stageStep, prep_combatant, if_neg h2]
    simp only [List.length_append, List.length_cons, List.length_nil]
    omega

/-- Folding staging steps preserves the capacity bound. -/
theorem stageSeq_le_aux (ms : List Meal) (s : BattleModel)
    (h : s.combatants.length ≤ 2) :
    (ms.foldl stageStep s).combatants.length ≤ 2 := by
  induction ms generalizing s with
  | nil => simpa using h
  | cons a as ih =>
    simp only [List.foldl_cons]
    exact ih (stageStep s a) (stageStep_le s a h)

/-- The sample meal Spaghetti scores 15 × 7 − 3 = 102. -/
theorem score_spaghetti : get_battle_score spaghetti = 102 := by
  have h7 : "Italian".length = 7 := rfl
  simp only [get_battle_score, spaghetti, difficulty_modifier, h7]
  norm_num

/-- The sample meal Sushi scores 20 × 8 − 1 = 159. -/
theorem score_sushi : get_battle_score sushi = 159 := by
  have h8 : "Japanese".length = 8 := rfl
  simp only [get_battle_score, sushi, difficulty_modifier, h8]
  norm_num

/-- The normalized score gap of the two sample meals is 57/100. -/
theorem sample_delta :
    |get_battle_score spaghetti - get_battle_score sushi| / 100 = 57 / 100 := by
  rw [score_spaghetti, score_sushi]
  rw [show |(102 : Rat) - 159| = 57 by rw [abs_of_nonpos] <;> norm_num]

/-- C2: with exactly two staged combatants and any draw r in [0,1), battle
computes delta = |score c1 − score c2| / 100 and selects c1 (returning its
name, keeping it as sole roster member, recording its win and the loss of c2)
exactly when r < delta, and c2 symmetrically otherwise. -/
theorem C2_resolution_rule (c1 c2 : Meal) (r : Rat) (h0 : 0 ≤ r) (h1 : r < 1) :
    (r < |get_battle_score c1 - get_battle_score c2| / 100 →
      battle ⟨[c1, c2]⟩ r =
        (Except.ok ⟨c1.meal, ⟨[c1]⟩⟩,
         [ExtCall.getRandom, ExtCall.updateStats c1.id "win",
          ExtCall.updateStats c2.id "loss"])) ∧
    (¬ r < |get_battle_score c1 - get_battle_score c2| / 100 →
      battle ⟨[c1, c2]⟩ r =
        (Except.ok ⟨c2.meal, ⟨[c2]⟩⟩,
         [ExtCall.getRandom, ExtCall.updateStats c2.id "win",
          ExtCall.updateStats c1.id "loss"])) := by
  constructor <;> intro h <;> simp [battle, h]

/-- Witness for C2 at the sample battle of the test suite: draw 0.6 against
delta 0.57 makes the second-staged Sushi the winner. -/
theorem C2_witness :
    battle ⟨[spaghetti, sushi]⟩ (3 / 5) =
      (Except.ok ⟨"Sushi", ⟨[sushi]⟩⟩,
       [ExtCall.getRandom, ExtCall.updateStats 2 "win",
        ExtCall.updateStats 1 "loss"]) :=
  (C2_resolution_rule spaghetti sushi (3 / 5) (by norm_num) (by norm_num)).2
    (by rw [sample_delta]; norm_num)

/-- C3: the roster length never exceeds 2 over any staging sequence from a
fresh engine, and a staging call on a full roster fails with the capacity
error (with no new state produced, the roster is unchanged). -/
theorem C3_capacity (ms : List Meal) (s : BattleModel) (m : Meal)
    (h : s.combatants.length = 2) :
    (stageSeq ms).combatants.length ≤ 2 ∧
    prep_combatant s m =
      Except.error "Combatant list is full, cannot add more combatants." := by
  constructor
  · exact stageSeq_le_aux ms BattleModel.init (by simp [BattleModel.init])
  · simp [prep_combatant, h]

/-- Witness for C3: three staging calls leave at most two combatants, and
the third call on a full roster fails with the capacity error. -/
theorem C3_witness :
    (stageSeq [spaghetti, sushi, spaghetti]).combatants.length ≤ 2 ∧
    prep_combatant ⟨[spaghetti, sushi]⟩ spaghetti =
      Except.error "Combatant list is full, cannot add more combatants." :=
  C3_capacity [spaghetti, sushi, spaghetti] ⟨[spaghetti, sushi]⟩ spaghetti rfl

/-- C4: battle with 0 or 1 staged combatants fails with the precondition
error, issues no external call (the Random Provider is not consulted and no
Store update happens), and produces no new state. -/
theorem C4_precondition_no_side_effects (s : BattleModel) (r : Rat)
    (h : s.combatants.length = 0 ∨ s.combatants.length = 1) :
    battle s r =
      (Except.error "Two combatants must be prepped for a battle.", []) := by
  obtain ⟨l⟩ := s
  rcases h with h | h
  · rw [List.length_eq_zero] at h
    subst h
    rfl
  · rw [List.length_eq_one] at h
    obtain ⟨a, rfl⟩ := h
    rfl

/-- Witness for C4: battling with a single staged combatant fails with the
precondition error and an empty call trace. -/
theorem C4_witness :
    battle ⟨[spaghetti]⟩ (1 / 2) =
      (Except.error "Two combatants must be prepped for a battle.", []) :=
  C4_precondition_no_side_effects ⟨[spaghetti]⟩ (1 / 2) (Or.inr rfl)

/-- C6: after every successful battle the roster holds exactly one
combatant, and that sole combatant is the winner (its display name is the
returned winner name). -/
theorem C6_roster_after_battle (s : BattleModel) (r : Rat) (out : BattleOutcome)
    (tr : List ExtCall) (h : battle s r = (Except.ok out, tr)) :
    out.state.combatants.length = 1 ∧
    out.state.combatants.map Meal.meal = [out.winner] := by
  obtain ⟨l⟩ := s
  match l with
  | [] => simp [battle] at h
  | [a] => simp [battle] at h
  | a :: b :: c :: rest => simp [battle] at h
  | [a, b] =>
    simp only [battle] at h
    split at h <;>
    · simp only [Prod.mk.injEq, Except.ok.injEq] at h
      obtain ⟨h1, h2⟩ := h
      subst h1
      simp

/-- Witness for C6 at the sample battle with draw 0.6: Sushi remains as the
sole roster member and is the returned winner. -/
theorem C6_witness :
    (BattleOutcome.mk "Sushi" ⟨[sushi]⟩).state.combatants.length = 1 ∧
    (BattleOutcome.mk "Sushi" ⟨[sushi]⟩).state.combatants.map Meal.meal = ["Sushi"] :=
  C6_roster_after_battle ⟨[spaghetti, sushi]⟩ (3 / 5) ⟨"Sushi", ⟨[sushi]⟩⟩
    [ExtCall.getRandom, ExtCall.updateStats 2 "win", ExtCall.updateStats 1 "loss"]
    (by
      have hne : ¬ ((3 : Rat) / 5 < |get_battle_score spaghetti - get_battle_score sushi| / 100) := by
        rw [sample_delta]; norm_num
      simp [battle, hne]
      exact ⟨rfl, rfl, rfl⟩)

/-- A stat-bumping map does not change row identity, so lookup commutes
with it. -/
theorem findMeal_map (db : Db) (meal_id : Nat) (f : MealRow → MealRow)
    (hid : ∀ t, (f t).id = t.id) :
    findMeal (db.map f) meal_id = (findMeal db meal_id).map f := by
  unfold findMeal
  rw [List.find?_map]
  have hfun : ((fun row => row.id == meal_id) ∘ f) = fun t => t.id == meal_id := by
    funext t
    simp [Function.comp, hid]
  rw [hfun]

/-- C7: update_meal_stats on an existing, not soft-deleted meal increments
battle count and win count on "win" and battle count only on "loss"; it
fails, applying no update, exactly when the meal is missing, the meal is
soft-deleted, or the result is neither "win" nor "loss". -/
theorem C7_update_stats (db : Db) (meal_id : Nat) (result : String) :
    (isOk (update_meal_stats db meal_id result) = false ↔
      findMeal db meal_id = none ∨
      (∃ row, findMeal db meal_id = some row ∧ row.deleted = true) ∨
      (result ≠ "win" ∧ result ≠ "loss")) ∧
    (∀ row, findMeal db meal_id = some row → row.deleted = false →
      (∃ db2, update_meal_stats db meal_id "win" = Except.ok db2 ∧
        findMeal db2 meal_id =
          some { row with battles := row.battles + 1, wins := row.wins + 1 }) ∧
      (∃ db2, update_meal_stats db meal_id "loss" = Except.ok db2 ∧
        findMeal db2 meal_id = some { row with battles := row.battles + 1 })) := by
  constructor
  · cases hfind : findMeal db meal_id with
    | none => simp [update_meal_stats, hfind, isOk]
    | some row =>
      by_cases hdel : row.deleted
      · simp [update_meal_stats, hfind, hdel, isOk]
      · by_cases hwin : result = "win"
        · simp [update_meal_stats, hfind, hdel, hwin, isOk]
        · by_cases hloss : result = "loss"
          · simp [update_meal_stats, hfind, hdel, hwin, hloss, isOk]
          · simp [update_meal_stats, hfind, hdel, hwin, hloss, isOk]
  · intro row hrow hdel
    have hfind2 : db.find? (fun t => t.id == meal_id) = some row := hrow
    have hid : (row.id == meal_id) = true := by
      have h3 := List.find?_some hfind2
      simpa using h3
    constructor
    · refine ⟨db.map (fun t => if t.id == meal_id then
          { t with battles := t.battles + 1, wins := t.wins + 1 } else t), ?_, ?_⟩
      · simp [update_meal_stats, hrow, hdel]
      · rw [findMeal_map db meal_id _
          (fun t => by by_cases hc : t.id == meal_id <;> simp [hc])]
        rw [hrow]
        have heq : row.id = meal_id := by simpa using hid
        simp [heq]
    · refine ⟨db.map (fun t => if t.id == meal_id then
          { t with battles := t.battles + 1 } else t), ?_, ?_⟩
      · simp [update_meal_stats, hrow, hdel]
      · rw [findMeal_map db meal_id _
          (fun t => by by_cases hc : t.id == meal_id <;> simp [hc])]
        rw [hrow]
        have heq : row.id = meal_id := by simpa using hid
        simp [heq]

/-- Witness for C7: updating the sample row with a "win" yields a store
whose row 1 has one battle and one win; updating a missing meal fails. -/
theorem C7_witness :
    (∃ db2, update_meal_stats [spagRow] 1 "win" = Except.ok db2 ∧
      findMeal db2 1 = some ⟨1, "Spaghetti", "Italian", 15, "MED", 1, 1, false⟩) ∧
    isOk (update_meal_stats [spagRow] 999 "win") = false :=
  ⟨((C7_update_stats [spagRow] 1 "win").2 spagRow rfl rfl).1,
   (C7_update_stats [spagRow] 999 "win").1.mpr (Or.inl rfl)⟩

/-- C9: validation of meal attributes lives in the creation path of the Store —
create_meal rejects every non-positive price and every difficulty outside
LOW/MED/HIGH — while the Engine stages any combatant without validating its
attributes whenever the roster has room. -/
theorem C9_validation_in_store (db : Db) (name cuisine : String) (price : Rat)
    (difficulty : String) (s : BattleModel) (m : Meal) :
    (price ≤ 0 → isOk (create_meal db name cuisine price difficulty) = false) ∧
    (validDifficulty difficulty = false →
      isOk (create_meal db name cuisine price difficulty) = false) ∧
    (s.combatants.length < 2 →
      prep_combatant s m = Except.ok ⟨s.combatants ++ [m]⟩) := by
  refine ⟨fun hp => ?_, fun hd => ?_, fun hs => ?_⟩
  · simp [create_meal, hp, isOk]
  · by_cases hp : price ≤ 0
    · simp [create_meal, hp, isOk]
    · simp [create_meal, hp, hd, isOk]
  · have h2 : ¬ 2 ≤ s.combatants.length := by omega
    simp [prep_combatant, h2]

/-- Witness for C9: a negative price is rejected, the difficulty "MIDDLE"
is rejected, and the Engine happily stages a meal with a negative price. -/
theorem C9_witness :
    isOk (create_meal [] "Spaghetti" "Italian" (-15) "MED") = false ∧
    isOk (create_meal [] "Sushi" "Japanese" (37 / 2) "MIDDLE") = false ∧
    prep_combatant ⟨[]⟩ ⟨7, "Freebie", "Street", -5, Difficulty.LOW⟩ =
      Except.ok ⟨[⟨7, "Freebie", "Street", -5, Difficulty.LOW⟩]⟩ :=
  ⟨(C9_validation_in_store [] "Spaghetti" "Italian" (-15) "MED" ⟨[]⟩ spaghetti).1
      (by norm_num),
   (C9_validation_in_store [] "Sushi" "Japanese" (37 / 2) "MIDDLE" ⟨[]⟩ spaghetti).2.1
      rfl,
   (C9_validation_in_store [] "Any" "Any" 1 "LOW" ⟨[]⟩
      ⟨7, "Freebie", "Street", -5, Difficulty.LOW⟩).2.2 (by norm_num)⟩

/-- C10: get_leaderboard with sort key "wins" returns exactly the rows that
are not soft-deleted and have battles > 0, ordered by win count descending,
each entry carrying win_pct = wins / battles. -/
theorem C10_leaderboard_wins (db : Db) :
    ∃ lb, get_leaderboard db "wins" = Except.ok lb ∧
      lb.Perm ((db.filter (fun r => !r.deleted && decide (0 < r.battles))).map rowToEntry) ∧
      lb.Pairwise (fun a b => b.wins ≤ a.wins) ∧
      ∀ e ∈ lb, e.win_pct = (e.wins : Rat) / (e.battles : Rat) := by
  refine ⟨((db.filter (fun r => !r.deleted && decide (0 < r.battles))).mergeSort
      (fun a b => Nat.ble b.wins a.wins)).map rowToEntry, ?_, ?_, ?_, ?_⟩
  · simp [get_leaderboard]
  · exact List.Perm.map rowToEntry
      (List.mergeSort_perm (db.filter (fun r => !r.deleted && decide (0 < r.battles))) _)
  · have hsorted := @List.sorted_mergeSort MealRow
      (fun a b : MealRow => Nat.ble b.wins a.wins)
      (fun a b c hab hbc => by
        simp only [Nat.ble_eq] at hab hbc ⊢
        omega)
      (fun a b => by
        simp only [Bool.or_eq_true, Nat.ble_eq]
        omega)
      (db.filter (fun r => !r.deleted && decide (0 < r.battles)))
    refine List.Pairwise.map rowToEntry ?_ hsorted
    intro a b hab
    simpa [rowToEntry, Nat.ble_eq] using hab
  · intro e he
    rw [List.mem_map] at he
    obtain ⟨t, _, rfl⟩ := he
    rfl

/-- Witness for C10 on a concrete three-row store. -/
theorem C10_witness :
    ∃ lb,
      get_leaderboard
          [⟨1, "Spaghetti", "Italian", 15, "MED", 40, 30, false⟩,
           ⟨2, "Taco", "Mexican", 5, "LOW", 30, 18, false⟩,
           ⟨3, "Sushi", "Japanese", 37 / 2, "HIGH", 10, 8, false⟩] "wins" =
        Except.ok lb ∧
      lb.Perm (([⟨1, "Spaghetti", "Italian", 15, "MED", 40, 30, false⟩,
           ⟨2, "Taco", "Mexican", 5, "LOW", 30, 18, false⟩,
           ⟨3, "Sushi", "Japanese", 37 / 2, "HIGH", 10, 8, false⟩].filter
          (fun r => !r.deleted && decide (0 < r.battles))).map rowToEntry) ∧
      lb.Pairwise (fun a b => b.wins ≤ a.wins) ∧
      ∀ e ∈ lb, e.win_pct = (e.wins : Rat) / (e.battles : Rat) :=
  C10_leaderboard_wins
    [⟨1, "Spaghetti", "Italian", 15, "MED", 40, 30, false⟩,
     ⟨2, "Taco", "Mexican", 5, "LOW", 30, 18, false⟩,
     ⟨3, "Sushi", "Japanese", 37 / 2, "HIGH", 10, 8, false⟩]

/-- C8: clear_combatants empties the roster from any state, is a total
function (never raises), and is idempotent. -/
theorem C8_clear_idempotent (s : BattleModel) :
    clear_combatants s = ⟨[]⟩ ∧
    (clear_combatants s).combatants.length = 0 ∧
    clear_combatants (clear_combatants s) = clear_combatants s :=
  ⟨rfl, rfl, rfl⟩

end MealMax
